import Mathlib

/-!
Verification of `idaes/generic_models/properties/core/generic/utility.py`:
configuration-resolution helpers of the generic property framework
(`get_method`, `get_component_object`, `get_bounds_from_config`,
`set_param_value`).  The Python objects the functions inspect are embedded
shallowly: attribute namespaces and dictionaries become association lists,
pyomo units become rational scale factors, raised exceptions become an
explicit error type through `Except`.
-/

set_option maxHeartbeats 1000000

namespace IdaesUtility

/-- Association-list lookup, modelling Python attribute and dictionary
lookup (`getattr` / `[]`); `none` models the raised
`AttributeError`/`KeyError`. -/
def lookupA {α : Type} : List (String × α) → String → Option α
  | [], _ => none
  | (k, v) :: t, key => if k = key then some v else lookupA t key

/-- The Python values `get_method` distinguishes: `None`, a module with its
attribute namespace, a plain callable (a function, identified by a tag), and
a general object that may or may not be callable and carries an attribute
namespace (a class wrapping `return_expression` is a callable `obj`). -/
inductive PyVal : Type where
  | pynone : PyVal
  | module (attrs : List (String × PyVal)) : PyVal
  | func (tag : Nat) : PyVal
  | obj (isCall : Bool) (attrs : List (String × PyVal)) : PyVal

/-- Python `getattr` restricted to the attribute namespaces the model
carries: modules and objects expose their `attrs`; `None` and plain
functions have no user-defined attributes. -/
def getattrOpt : PyVal → String → Option PyVal
  | PyVal.module attrs, s => lookupA attrs s
  | PyVal.obj _ attrs, s => lookupA attrs s
  | _, _ => none

/-- Python `callable()`: functions are callable, an object is callable when
its class defines call, modules and `None` are not. -/
def isCallablePy : PyVal → Bool
  | PyVal.func _ => true
  | PyVal.obj c _ => c
  | _ => false

/-- The exceptions `get_method` can raise: the `AttributeError` re-raised
with the invalid-configuration-option message (utility.py lines 68-72);
`GenericPropertyPackageError` carrying the block and the property (lines
30-40, raised at line 74); `ConfigurationError` for a value that is not
callable (lines 85-90); the unhandled `AttributeError` escaping from the
module lookup at line 77; and the failure of `params.get_component` for an
unknown component name (line 63, external to this file). -/
inductive PPError : Type where
  | invalidConfigOption (name arg : String) : PPError
  | genericPropertyPackageError (block prop : String) : PPError
  | configurationError (name arg : String) : PPError
  | attributeError : PPError
  | componentNotFound (comp : String) : PPError

/-- The `params` object of a generic property block: its `config` attribute
namespace, and each named component's `config` namespace
(`params.get_component(comp).config`). -/
structure GenericParams : Type where
  config : List (String × PyVal)
  components : List (String × List (String × PyVal))

/-- The `self` argument of `get_method`: the block's display name and its
`params`. -/
structure PropBlock : Type where
  name : String
  params : GenericParams

/-- Embedding of `get_method` (utility.py lines 43-91): pick the source
config block, look the argument up (absent: invalid-configuration-option
error), reject `None` (`GenericPropertyPackageError`), resolve a module to
its attribute of the same name (absent: plain `AttributeError`), prefer a
`return_expression` attribute when present, and return the result when it
is callable (otherwise `ConfigurationError`). -/
def get_method (self : PropBlock) (config_arg : String)
    (comp : Option String := none) : Except PPError PyVal :=
  let src : Except PPError (List (String × PyVal)) :=
    match comp with
    | none => Except.ok self.params.config
    | some c =>
      match lookupA self.params.components c with
      | some cfg => Except.ok cfg
      | none => Except.error (PPError.componentNotFound c)
  match src with
  | Except.error e => Except.error e
  | Except.ok source_block =>
    match lookupA source_block config_arg with
    | none => Except.error (PPError.invalidConfigOption self.name config_arg)
    | some PyVal.pynone =>
      Except.error (PPError.genericPropertyPackageError self.name config_arg)
    | some c_arg =>
      match (match c_arg with
             | PyVal.module attrs => lookupA attrs config_arg
             | v => some v) with
      | none => Except.error PPError.attributeError
      | some c2 =>
        let mthd := match getattrOpt c2 "return_expression" with
          | some r => r
          | none => c2
        if isCallablePy mthd then Except.ok mthd
        else Except.error (PPError.configurationError self.name config_arg)

/-- Embedding of `get_component_object` (utility.py lines 94-107): a direct
delegation to `params.get_component`, modelled as the component lookup. -/
def get_component_object (self : PropBlock) (comp : String) :
    Option (List (String × PyVal)) :=
  lookupA self.params.components comp

/-- A pyomo unit of measurement, modelled by its scale factor relative to
the canonical unit of its dimension. -/
structure PyUnit : Type where
  scale : ℚ

/-- Scale of an optional unit: Python `None` behaves as the dimensionless
unit of scale 1. -/
def uscale : Option PyUnit → ℚ
  | none => 1
  | some u => u.scale

/-- Embedding of `pyunits.convert_value(v, from_units, to_units)`:
conversion between two units of one dimension multiplies by the ratio of
their scale factors. -/
def convert_value (v : ℚ) (from_units to_units : Option PyUnit) : ℚ :=
  v * uscale from_units / uscale to_units

/-- A `state_bounds` entry: the 3-tuple `(lower, default, upper)` form or
the 4-tuple `(lower, default, upper, units)` form that
`get_bounds_from_config` distinguishes by length (utility.py line 132). -/
inductive VarConfig : Type where
  | three (lower dval upper : ℚ) : VarConfig
  | four (lower dval upper : ℚ) (units : PyUnit) : VarConfig

/-- The config of a block as seen by `get_bounds_from_config`: the
`state_bounds` argument may be `None` — then subscripting it raises
`TypeError` — or a dictionary from state names to bound tuples, where a
missing name raises `KeyError`. -/
structure BoundsConfig : Type where
  state_bounds : Option (List (String × VarConfig))

/-- The `params` attribute of a state block for `get_bounds_from_config`. -/
structure BoundsParams : Type where
  config : BoundsConfig

/-- The state block argument of `get_bounds_from_config`. -/
structure BoundsBlock : Type where
  params : BoundsParams

/-- Embedding of `get_bounds_from_config` (utility.py lines 109-147): when
the `state_bounds` lookup fails (`KeyError` or `TypeError`) return
`((None, None), None)`; a 4-tuple is converted from its units into
`base_units`; a 3-tuple is returned unchanged. -/
def get_bounds_from_config (b : BoundsBlock) (state : String)
    (base_units : PyUnit) : (Option ℚ × Option ℚ) × Option ℚ :=
  match (match b.params.config.state_bounds with
         | none => none
         | some sb => lookupA sb state) with
  | none => ((none, none), none)
  | some (VarConfig.three lower dval upper) =>
    ((some lower, some upper), some dval)
  | some (VarConfig.four lower dval upper units) =>
    ((some (convert_value lower (some units) (some base_units)),
      some (convert_value upper (some units) (some base_units))),
     some (convert_value dval (some units) (some base_units)))

/-- A `parameter_data` entry: a bare numeric value, a `(value, units)` pair
whose units may be `None`, or a sub-dictionary holding the entries of an
indexed parameter. -/
inductive PData : Type where
  | num (v : ℚ) : PData
  | tup (v : ℚ) (units : Option PyUnit) : PData
  | dict (m : List (String × PData)) : PData

/-- The exceptions `set_param_value` can raise: `AttributeError` from
`getattr` for a missing parameter attribute, `KeyError` for a missing
`parameter_data` key, `TypeError` from subscripting a non-dictionary entry
with an index. -/
inductive SetParamError : Type where
  | attributeError : SetParamError
  | keyError : SetParamError
  | typeError : SetParamError

/-- A config block as seen by `set_param_value`: its `parameter_data`
dictionary. -/
structure ParamConfig : Type where
  parameter_data : List (String × PData)

/-- A block holding constructed parameter objects — attribute name to the
currently stored value — together with its own `config`. -/
structure ParamBlock : Type where
  name : String
  config : ParamConfig
  attrs : List (String × PData)

/-- The config block `set_param_value` reads: the `config` argument when
given, else `b.config` (utility.py lines 168-169). -/
def effective_config (b : ParamBlock) (config : Option ParamConfig) :
    ParamConfig :=
  match config with
  | none => b.config
  | some c => c

/-- `param_obj.value = x`: replace the value stored under an existing
attribute name. -/
def setValue : List (String × PData) → String → PData → List (String × PData)
  | [], _, _ => []
  | (k, v) :: t, key, nv =>
    if k = key then (k, nv) :: t else (k, v) :: setValue t key nv

/-- The value `set_param_value` stores (utility.py lines 178-187): a
`(value, units)` tuple is assigned raw when both its units and the target
units are `None` and converted otherwise; any other entry is assigned
unchanged. -/
def assign_param_value (p_data : PData) (units : Option PyUnit) : PData :=
  match p_data with
  | PData.tup v pu =>
    match units, pu with
    | none, none => PData.num v
    | _, _ => PData.num (convert_value v pu units)
  | other => other

/-- The debug message logged by `set_param_value` when the raw entry is not
a tuple (utility.py lines 185-186). -/
def no_units_msgs (bname param : String) (p_data : PData) : List String :=
  match p_data with
  | PData.tup _ _ => []
  | _ => [bname ++ " no units provided for parameter " ++ param ++
          " - assuming default units"]

/-- Embedding of `set_param_value` (utility.py lines 150-187): resolve the
target parameter attribute (`param`, or `param + "_" + index`), read the raw
data from `parameter_data[param]` (sub-indexed by `index` when given), then
store the possibly converted value; the result is the updated block together
with the debug messages logged. -/
def set_param_value (b : ParamBlock) (param : String) (units : Option PyUnit)
    (config : Option ParamConfig := none) (index : Option String := none) :
    Except SetParamError (ParamBlock × List String) :=
  let cfg := effective_config b config
  let resolved : Except SetParamError (String × PData) :=
    match index with
    | none =>
      match lookupA b.attrs param with
      | none => Except.error SetParamError.attributeError
      | some _ =>
        match lookupA cfg.parameter_data param with
        | none => Except.error SetParamError.keyError
        | some pd => Except.ok (param, pd)
    | some i =>
      match lookupA b.attrs (param ++ "_" ++ i) with
      | none => Except.error SetParamError.attributeError
      | some _ =>
        match lookupA cfg.parameter_data param with
        | none => Except.error SetParamError.keyError
        | some (PData.dict m) =>
          match lookupA m i with
          | none => Except.error SetParamError.keyError
          | some pd => Except.ok (param ++ "_" ++ i, pd)
        | some _ => Except.error SetParamError.typeError
  match resolved with
  | Except.error e => Except.error e
  | Except.ok (key, p_data) =>
    Except.ok
      ({ b with attrs := setValue b.attrs key (assign_param_value p_data units) },
       no_units_msgs b.name param p_data)
/-! Helper lemmas shared by the theorems below. -/

/-- Replacing a block's `attrs` leaves `effective_config` unchanged: the
config read by `set_param_value` never aliases the parameter attributes. -/
theorem effective_config_set_attrs (b : ParamBlock) (x : List (String × PData))
    (config : Option ParamConfig) :
    effective_config { b with attrs := x } config = effective_config b config := by
  cases config <;> rfl

/-- After `setValue`, looking the key up finds the new value (provided the
key was bound before, as `getattr` requires). -/
theorem lookupA_setValue_self {l : List (String × PData)} {k : String} {w : PData}
    (v : PData) (h : lookupA l k = some w) :
    lookupA (setValue l k v) k = some v := by
  induction l with
  | nil => simp [lookupA] at h
  | cons p t ih =>
    obtain ⟨a, bv⟩ := p
    by_cases hk : a = k
    · simp [lookupA, setValue, hk]
    · simp [lookupA, setValue, hk] at h ⊢
      exact ih h

/-- Storing the same value twice is the same as storing it once. -/
theorem setValue_setValue (l : List (String × PData)) (k : String) (v : PData) :
    setValue (setValue l k v) k v = setValue l k v := by
  induction l with
  | nil => rfl
  | cons p t ih =>
    obtain ⟨a, bv⟩ := p
    by_cases hk : a = k
    · simp [setValue, hk]
    · simp [setValue, hk, ih]

/-- Claim C1, amended: for every configuration object exposing under key K a
callable value that does not itself expose a `return_expression` attribute,
`get_method` returns that exact callable unchanged.  (As originally stated
the claim fails: a callable object carrying `return_expression` is resolved
to that attribute instead — see the counterexample.) -/
theorem get_method_plain_callable (self : PropBlock) (config_arg : String) (v : PyVal)
    (hlook : lookupA self.params.config config_arg = some v)
    (hcall : isCallablePy v = true)
    (hnore : getattrOpt v "return_expression" = none) :
    get_method self config_arg none = Except.ok v := by
  cases v with
  | pynone => simp [isCallablePy] at hcall
  | module attrs => simp [isCallablePy] at hcall
  | func n => simp [get_method, hlook, getattrOpt, isCallablePy]
  | obj c attrs =>
    simp [isCallablePy] at hcall
    simp only [getattrOpt] at hnore
    simp [get_method, hlook, getattrOpt, hnore, isCallablePy, hcall]

/-- Claim C1, counterexample to the original statement: a configuration
value that is callable (`isCallablePy` is `true`) but carries a
`return_expression` attribute is not returned unchanged — `get_method`
returns the attribute `PyVal.func 7`, which differs from the configured
callable itself. -/
theorem get_method_callable_unchanged_cex :
    lookupA (PropBlock.mk "blk" ⟨[("enth_mol_phase", PyVal.obj true [("return_expression", PyVal.func 7)])], []⟩).params.config "enth_mol_phase" = some (PyVal.obj true [("return_expression", PyVal.func 7)]) ∧
    isCallablePy (PyVal.obj true [("return_expression", PyVal.func 7)]) = true ∧
    get_method (PropBlock.mk "blk" ⟨[("enth_mol_phase", PyVal.obj true [("return_expression", PyVal.func 7)])], []⟩) "enth_mol_phase" none = Except.ok (PyVal.func 7) ∧
    PyVal.func 7 ≠ PyVal.obj true [("return_expression", PyVal.func 7)] := by
  refine ⟨rfl, rfl, rfl, ?_⟩
  intro hx
  exact PyVal.noConfusion hx

/-- Witness for C1's amended theorem at a concrete input: a plain function
configured under key `enth_mol_phase` is returned unchanged. -/
theorem get_method_plain_callable_witness :
    get_method ⟨"blk", ⟨[("enth_mol_phase", PyVal.func 3)], []⟩⟩ "enth_mol_phase" none = Except.ok (PyVal.func 3) :=
  get_method_plain_callable ⟨"blk", ⟨[("enth_mol_phase", PyVal.func 3)], []⟩⟩ "enth_mol_phase" (PyVal.func 3) rfl rfl rfl

/-- Claim C2, amended: for every configuration object whose value under key
K is a (non-module) object exposing a `return_expression` attribute that is
callable, `get_method` returns that attribute, not the wrapping object.
(As originally stated the claim fails: when `return_expression` is not
callable the resolver raises `ConfigurationError` instead of returning the
attribute — see the counterexample.) -/
theorem get_method_return_expression (self : PropBlock) (config_arg : String)
    (c : Bool) (attrs : List (String × PyVal)) (r : PyVal)
    (hlook : lookupA self.params.config config_arg = some (PyVal.obj c attrs))
    (hre : lookupA attrs "return_expression" = some r)
    (hcall : isCallablePy r = true) :
    get_method self config_arg none = Except.ok r := by
  simp [get_method, hlook, getattrOpt, hre, hcall]

/-- Claim C2, counterexample to the original statement: an object whose
`return_expression` attribute is `None` (not callable) makes `get_method`
raise `ConfigurationError` rather than return the attribute. -/
theorem get_method_return_expression_cex :
    getattrOpt (PyVal.obj false [("return_expression", PyVal.pynone)]) "return_expression" = some PyVal.pynone ∧
    get_method (PropBlock.mk "blk" ⟨[("enth_mol_phase", PyVal.obj false [("return_expression", PyVal.pynone)])], []⟩) "enth_mol_phase" none = Except.error (PPError.configurationError "blk" "enth_mol_phase") :=
  ⟨rfl, rfl⟩

/-- Witness for C2's amended theorem at a concrete input: a wrapper object
with callable `return_expression` resolves to the wrapped function. -/
theorem get_method_return_expression_witness :
    get_method ⟨"blk", ⟨[("enth_mol_phase", PyVal.obj true [("return_expression", PyVal.func 7)])], []⟩⟩ "enth_mol_phase" none = Except.ok (PyVal.func 7) :=
  get_method_return_expression ⟨"blk", ⟨[("enth_mol_phase", PyVal.obj true [("return_expression", PyVal.func 7)])], []⟩⟩ "enth_mol_phase" true [("return_expression", PyVal.func 7)] (PyVal.func 7) rfl rfl rfl

/-- Claim C3: `get_method` fails with `GenericPropertyPackageError` — which
carries the owning block's name and the property — exactly when the value
configured under the key is `None`, and fails with the distinct
invalid-configuration-option error exactly when the key is absent from the
configuration namespace. -/
theorem get_method_error_taxonomy (self : PropBlock) (config_arg : String) :
    (get_method self config_arg none =
        Except.error (PPError.genericPropertyPackageError self.name config_arg) ↔
      lookupA self.params.config config_arg = some PyVal.pynone) ∧
    (get_method self config_arg none =
        Except.error (PPError.invalidConfigOption self.name config_arg) ↔
      lookupA self.params.config config_arg = none) := by
  rcases h : lookupA self.params.config config_arg with _ | v
  · simp [get_method, h]
  · cases v with
    | pynone => simp [get_method, h]
    | func n => simp [get_method, h, getattrOpt, isCallablePy]
    | obj c attrs =>
      rcases h3 : lookupA attrs "return_expression" with _ | r
      · cases c <;> simp [get_method, h, getattrOpt, h3, isCallablePy]
      · cases hc : isCallablePy r <;> simp [get_method, h, getattrOpt, h3, hc]
    | module attrs =>
      rcases h2 : lookupA attrs config_arg with _ | w
      · simp [get_method, h, h2]
      · rcases h3 : getattrOpt w "return_expression" with _ | r
        · cases hc : isCallablePy w <;> simp [get_method, h, h2, h3, hc]
        · cases hc : isCallablePy r <;> simp [get_method, h, h2, h3, hc]

/-- Claim C10: when the configured value under key K is a module that does
not define an attribute named K, the attribute-lookup failure escapes as
the plain `AttributeError`, distinct from all three documented error kinds
(invalid configuration option, property method not provided, malformed
configuration value). -/
theorem get_method_module_missing_attribute (self : PropBlock) (config_arg : String)
    (attrs : List (String × PyVal))
    (hlook : lookupA self.params.config config_arg = some (PyVal.module attrs))
    (hmiss : lookupA attrs config_arg = none) :
    get_method self config_arg none = Except.error PPError.attributeError ∧
    (∀ a b, PPError.attributeError ≠ PPError.invalidConfigOption a b) ∧
    (∀ a b, PPError.attributeError ≠ PPError.genericPropertyPackageError a b) ∧
    (∀ a b, PPError.attributeError ≠ PPError.configurationError a b) := by
  refine ⟨by simp [get_method, hlook, hmiss], ?_, ?_, ?_⟩ <;>
    exact fun a b hx => PPError.noConfusion hx

/-- Witness for C10 at a concrete input: a module defining only `other`
configured under key `dens_mol_phase`. -/
theorem get_method_module_missing_attribute_witness :
    get_method ⟨"blk", ⟨[("dens_mol_phase", PyVal.module [("other", PyVal.func 1)])], []⟩⟩ "dens_mol_phase" none = Except.error PPError.attributeError ∧
    (∀ a b, PPError.attributeError ≠ PPError.invalidConfigOption a b) ∧
    (∀ a b, PPError.attributeError ≠ PPError.genericPropertyPackageError a b) ∧
    (∀ a b, PPError.attributeError ≠ PPError.configurationError a b) :=
  get_method_module_missing_attribute ⟨"blk", ⟨[("dens_mol_phase", PyVal.module [("other", PyVal.func 1)])], []⟩⟩ "dens_mol_phase" [("other", PyVal.func 1)] rfl rfl

/-- Claim C4: a 4-element bound specification `(lower, default, upper,
units)` is converted element-wise from its units into the base units: with
`f` the conversion factor (the image of 1), the bounds are `lower * f` and
`upper * f` and the default is `default * f`. -/
theorem get_bounds_from_config_four_tuple (b : BoundsBlock) (state : String)
    (base_units ua : PyUnit) (sb : List (String × VarConfig)) (l d u : ℚ)
    (hsb : b.params.config.state_bounds = some sb)
    (hlook : lookupA sb state = some (VarConfig.four l d u ua)) :
    get_bounds_from_config b state base_units =
      ((some (l * convert_value 1 (some ua) (some base_units)),
        some (u * convert_value 1 (some ua) (some base_units))),
       some (d * convert_value 1 (some ua) (some base_units))) := by
  simp [get_bounds_from_config, hsb, hlook, convert_value, uscale]
  refine ⟨⟨?_, ?_⟩, ?_⟩ <;> ring

/-- Witness for C4 at the spec's concrete input: spec `(1, 5, 10, unit_a)`
with `unit_a` of scale 1000 against a base unit of scale 1 yields bounds
`(1*f, 10*f)` and default `5*f` for `f` the conversion factor. -/
theorem get_bounds_from_config_four_tuple_witness :
    get_bounds_from_config ⟨⟨⟨some [("temperature", VarConfig.four 1 5 10 ⟨1000⟩)]⟩⟩⟩ "temperature" ⟨1⟩ =
      ((some (1 * convert_value 1 (some ⟨1000⟩) (some ⟨1⟩)), some (10 * convert_value 1 (some ⟨1000⟩) (some ⟨1⟩))), some (5 * convert_value 1 (some ⟨1000⟩) (some ⟨1⟩))) :=
  get_bounds_from_config_four_tuple ⟨⟨⟨some [("temperature", VarConfig.four 1 5 10 ⟨1000⟩)]⟩⟩⟩ "temperature" ⟨1⟩ ⟨1000⟩ [("temperature", VarConfig.four 1 5 10 ⟨1000⟩)] 1 5 10 rfl rfl

/-- Claim C5: when the state variable's bound specification is absent —
`state_bounds` is `None` (not indexable) or does not contain the state's
key — `get_bounds_from_config` returns `((None, None), None)` instead of
raising. -/
theorem get_bounds_from_config_missing (b : BoundsBlock) (state : String)
    (base_units : PyUnit)
    (habs : b.params.config.state_bounds = none ∨
      ∃ sb, b.params.config.state_bounds = some sb ∧ lookupA sb state = none) :
    get_bounds_from_config b state base_units = ((none, none), none) := by
  rcases habs with h | ⟨sb, h, h2⟩
  · simp [get_bounds_from_config, h]
  · simp [get_bounds_from_config, h, h2]

/-- Witness for C5 at a concrete input: a block whose `state_bounds` is
`None`. -/
theorem get_bounds_from_config_missing_witness :
    get_bounds_from_config ⟨⟨⟨none⟩⟩⟩ "temperature" ⟨1⟩ = ((none, none), none) :=
  get_bounds_from_config_missing ⟨⟨⟨none⟩⟩⟩ "temperature" ⟨1⟩ (Or.inl rfl)

/-- Claim C6: for a `(value, units)` raw entry, `set_param_value` stores the
raw value unchanged when both the target units and the supplied units are
`None`, and otherwise stores the value converted from the supplied units to
the target units — including when only one of the two is set. -/
theorem set_param_value_tuple (b : ParamBlock) (param : String)
    (units : Option PyUnit) (config : Option ParamConfig) (v : ℚ)
    (pu : Option PyUnit) (w : PData)
    (hattr : lookupA b.attrs param = some w)
    (hdata : lookupA (effective_config b config).parameter_data param =
      some (PData.tup v pu)) :
    (units = none → pu = none →
      set_param_value b param units config none =
        Except.ok ({ b with attrs := setValue b.attrs param (PData.num v) }, [])) ∧
    (¬(units = none ∧ pu = none) →
      set_param_value b param units config none =
        Except.ok ({ b with attrs := setValue b.attrs param (PData.num (convert_value v pu units)) }, [])) := by
  constructor
  · intro hu hp
    subst hu; subst hp
    simp [set_param_value, hattr, hdata, assign_param_value, no_units_msgs]
  · intro hne
    rcases units with _ | tu
    · rcases pu with _ | pun
      · exact absurd ⟨rfl, rfl⟩ hne
      · simp [set_param_value, hattr, hdata, assign_param_value, no_units_msgs]
    · simp [set_param_value, hattr, hdata, assign_param_value, no_units_msgs]

/-- Witness for C6 at a concrete input: raw entry `(2, unit of scale 1000)`
with a target unit of scale 1 stores the converted value and logs nothing. -/
theorem set_param_value_tuple_witness :
    set_param_value ⟨"b", ⟨[("tau", PData.tup 2 (some ⟨1000⟩))]⟩, [("tau", PData.num 0)]⟩ "tau" (some ⟨1⟩) none none =
      Except.ok (⟨"b", ⟨[("tau", PData.tup 2 (some ⟨1000⟩))]⟩, [("tau", PData.num (convert_value 2 (some ⟨1000⟩) (some ⟨1⟩)))]⟩, []) :=
  (set_param_value_tuple ⟨"b", ⟨[("tau", PData.tup 2 (some ⟨1000⟩))]⟩, [("tau", PData.num 0)]⟩ "tau" (some ⟨1⟩) none 2 (some ⟨1000⟩) (PData.num 0) rfl rfl).2 (fun hx => Option.noConfusion hx.1)

/-- Claim C7: a bare (non-pair) raw entry is stored exactly unchanged for
every target unit — no conversion — and the no-units debug note naming the
block and the parameter is emitted. -/
theorem set_param_value_bare (b : ParamBlock) (param : String)
    (units : Option PyUnit) (config : Option ParamConfig) (v : ℚ) (w : PData)
    (hattr : lookupA b.attrs param = some w)
    (hdata : lookupA (effective_config b config).parameter_data param =
      some (PData.num v)) :
    set_param_value b param units config none =
      Except.ok ({ b with attrs := setValue b.attrs param (PData.num v) },
        [b.name ++ " no units provided for parameter " ++ param ++
         " - assuming default units"]) := by
  simp [set_param_value, hattr, hdata, assign_param_value, no_units_msgs]

/-- Witness for C7 at the spec's concrete input: bare raw value 2 with a
non-trivial target unit is stored as exactly 2 and the note is logged. -/
theorem set_param_value_bare_witness :
    set_param_value ⟨"b", ⟨[("tau", PData.num 2)]⟩, [("tau", PData.num 0)]⟩ "tau" (some ⟨1⟩) none none =
      Except.ok (⟨"b", ⟨[("tau", PData.num 2)]⟩, [("tau", PData.num 2)]⟩, ["b no units provided for parameter tau - assuming default units"]) :=
  set_param_value_bare ⟨"b", ⟨[("tau", PData.num 2)]⟩, [("tau", PData.num 0)]⟩ "tau" (some ⟨1⟩) none 2 (PData.num 0) rfl rfl

/-- Claim C8: an indexed call with name N and index I targets the attribute
named `N ++ "_" ++ I` on the block and reads its raw data from
`parameter_data[N][I]`. -/
theorem set_param_value_indexed (b : ParamBlock) (param i : String)
    (units : Option PyUnit) (config : Option ParamConfig)
    (m : List (String × PData)) (p_data : PData) (w : PData)
    (hattr : lookupA b.attrs (param ++ "_" ++ i) = some w)
    (hdict : lookupA (effective_config b config).parameter_data param =
      some (PData.dict m))
    (hdata : lookupA m i = some p_data) :
    set_param_value b param units config (some i) =
      Except.ok ({ b with attrs := setValue b.attrs (param ++ "_" ++ i) (assign_param_value p_data units) },
        no_units_msgs b.name param p_data) := by
  simp [set_param_value, hattr, hdict, hdata]

/-- Witness for C8 at the spec's concrete input: name `kappa` with index
`1` targets the attribute `kappa_1` and reads
`parameter_data["kappa"]["1"]`. -/
theorem set_param_value_indexed_witness :
    set_param_value ⟨"b", ⟨[("kappa", PData.dict [("1", PData.num 4)])]⟩, [("kappa_1", PData.num 0)]⟩ "kappa" none none (some "1") =
      Except.ok (⟨"b", ⟨[("kappa", PData.dict [("1", PData.num 4)])]⟩, [("kappa_1", PData.num 4)]⟩, ["b no units provided for parameter kappa - assuming default units"]) :=
  set_param_value_indexed ⟨"b", ⟨[("kappa", PData.dict [("1", PData.num 4)])]⟩, [("kappa_1", PData.num 0)]⟩ "kappa" "1" none none [("1", PData.num 4)] (PData.num 4) (PData.num 0) rfl rfl rfl

/-- Claim C9: `set_param_value` is idempotent — a second call with identical
arguments succeeds, stores the same final value and logs the same messages,
because the raw data is re-read from the unchanged config rather than from
the mutated parameter. -/
theorem set_param_value_idem (b : ParamBlock) (param : String)
    (units : Option PyUnit) (config : Option ParamConfig) (index : Option String)
    (b1 : ParamBlock) (logs : List String)
    (h : set_param_value b param units config index = Except.ok (b1, logs)) :
    set_param_value b1 param units config index = Except.ok (b1, logs) := by
  cases index with
  | none =>
    rcases h1 : lookupA b.attrs param with _ | w
    · simp [set_param_value, h1] at h
    · rcases h2 : lookupA (effective_config b config).parameter_data param with _ | pd
      · simp [set_param_value, h1, h2] at h
      · simp only [set_param_value, h1, h2] at h
        have h1' := lookupA_setValue_self (assign_param_value pd units) h1
        rw [Except.ok.injEq, Prod.mk.injEq] at h
        obtain ⟨hb, hl⟩ := h
        subst hb; subst hl
        have h2' : lookupA (effective_config { b with attrs := setValue b.attrs param (assign_param_value pd units) } config).parameter_data param = some pd := by
          rw [effective_config_set_attrs]; exact h2
        simp [set_param_value, h1', h2', setValue_setValue]
  | some i =>
    rcases h1 : lookupA b.attrs (param ++ "_" ++ i) with _ | w
    · simp [set_param_value, h1] at h
    · rcases h2 : lookupA (effective_config b config).parameter_data param with _ | e
      · simp [set_param_value, h1, h2] at h
      · cases e with
        | num v => simp [set_param_value, h1, h2] at h
        | tup v pu => simp [set_param_value, h1, h2] at h
        | dict m =>
          rcases h3 : lookupA m i with _ | pd
          · simp [set_param_value, h1, h2, h3] at h
          · simp only [set_param_value, h1, h2, h3] at h
            have h1' := lookupA_setValue_self (assign_param_value pd units) h1
            rw [Except.ok.injEq, Prod.mk.injEq] at h
            obtain ⟨hb, hl⟩ := h
            subst hb; subst hl
            have h2' : lookupA (effective_config { b with attrs := setValue b.attrs (param ++ "_" ++ i) (assign_param_value pd units) } config).parameter_data param = some (PData.dict m) := by
              rw [effective_config_set_attrs]; exact h2
            simp [set_param_value, h1', h2', h3, setValue_setValue]

/-- Witness for C9 at a concrete input: the first call's result is fed back
in and the second call returns the same stored value and messages. -/
theorem set_param_value_idem_witness :
    set_param_value ⟨"b", ⟨[("tau", PData.num 2)]⟩, [("tau", PData.num 2)]⟩ "tau" none none none =
      Except.ok (⟨"b", ⟨[("tau", PData.num 2)]⟩, [("tau", PData.num 2)]⟩, ["b no units provided for parameter tau - assuming default units"]) :=
  set_param_value_idem ⟨"b", ⟨[("tau", PData.num 2)]⟩, [("tau", PData.num 2)]⟩ "tau" none none none ⟨"b", ⟨[("tau", PData.num 2)]⟩, [("tau", PData.num 2)]⟩ ["b no units provided for parameter tau - assuming default units"] rfl

end IdaesUtility
